import Mathlib

/-!
Verification of the BackRemove gateway (`src/app/main.py`).

The embedding models the per-client lockout tracker (`_is_blocked`,
`_record_failure`), the API-key dependency (`verify_api_key`) and the
`/remove-bg` handler (`remove_bg`): content-type allow-list check, chunked
size-limited upload loop, and timeout-bounded offload of the blocking work.

Modelling choices:
* the monotonic clock is a rational number passed explicitly (`time.monotonic()`
  only ever enters comparisons of differences, so any linear ordered field is
  faithful);
* the two module-level dicts `_failed_attempts` and `_blocked_ips` become a
  `TrackerState` of total functions into `Option` (a key absent from the dict
  is `none`), threaded explicitly through each operation;
* bytes are abstract (`Byte := ℕ`); the upload stream is the list of chunks
  successive `file.read(256*1024)` calls return, the empty chunk meaning EOF;
* the blocking `_process_image` work is a parameter carrying its running time
  and its result (output bytes or a raised cause); `anyio.fail_after` around
  the non-abandoning `anyio.to_thread.run_sync` never actually delivers its
  cancellation (the thread wait is shielded and no checkpoint follows it
  before the scope exits), so the work's own completion or failure always
  comes through — the model renders that actual behaviour, with the
  consequence proved as the C5 divergence below.
-/

namespace BackRemove

abbrev Time := ℚ
abbrev Byte := ℕ

/-- `MAX_FAILED_ATTEMPTS = 5` in `main.py`. -/
def MAX_FAILED_ATTEMPTS : ℕ := 5

/-- `BLOCK_DURATION = 900` seconds in `main.py`. -/
def BLOCK_DURATION : Time := 900

/-- `ATTEMPT_WINDOW = 60` seconds in `main.py`. -/
def ATTEMPT_WINDOW : Time := 60

/-- `MAX_FILE_SIZE = 20 * 1024 * 1024` bytes in `main.py`. -/
def MAX_FILE_SIZE : ℕ := 20 * 1024 * 1024

/-- The `ALLOWED_TYPES` set literal of `main.py`, in source order. -/
def ALLOWED_TYPES : List String :=
  ["image/jpeg", "image/png", "image/webp", "image/gif", "image/avif", "image/svg+xml"]

/-- The module-level mutable state: `_failed_attempts : dict[str, list[float]]`
and `_blocked_ips : dict[str, float]`. A key that is not in the dict maps to
`none`. -/
structure TrackerState where
  failed_attempts : String → Option (List Time)
  blocked_ips : String → Option Time

/-- Both dicts start empty at process start. -/
def TrackerState.initial : TrackerState :=
  { failed_attempts := fun _ => none, blocked_ips := fun _ => none }

/-- The list comprehension `[t for t in attempts if now - t < ATTEMPT_WINDOW]`
inside `_record_failure`. -/
def pruneWindow (now : Time) (attempts : List Time) : List Time :=
  attempts.filter fun t => decide (now - t < ATTEMPT_WINDOW)

/-- `_is_blocked(ip)` of `main.py`: returns the boolean result together with the
state of the two dicts after the call (the stale-lockout branch deletes
`_blocked_ips[ip]` and pops `_failed_attempts[ip]`). -/
def _is_blocked (now : Time) (ip : String) (st : TrackerState) : Bool × TrackerState :=
  match st.blocked_ips ip with
  | some t =>
    if now - t < BLOCK_DURATION then (true, st)
    else
      (false,
        { failed_attempts := fun x => if x = ip then none else st.failed_attempts x,
          blocked_ips := fun x => if x = ip then none else st.blocked_ips x })
  | none => (false, st)

/-- `_record_failure(ip)` of `main.py`: prune the window, append `now`, store,
and create/overwrite the lockout when the count reaches the threshold. -/
def _record_failure (now : Time) (ip : String) (st : TrackerState) : TrackerState :=
  let attempts := pruneWindow now ((st.failed_attempts ip).getD []) ++ [now]
  let fa := fun x => if x = ip then some attempts else st.failed_attempts x
  if MAX_FAILED_ATTEMPTS ≤ attempts.length then
    { failed_attempts := fa,
      blocked_ips := fun x => if x = ip then some now else st.blocked_ips x }
  else
    { failed_attempts := fa, blocked_ips := st.blocked_ips }

/-- Outcome of the `verify_api_key` dependency: either it returns (allow) or it
raises an `HTTPException(status, detail)`. -/
inductive AuthOutcome where
  | allow
  | httpError (status : ℕ) (detail : String)
deriving DecidableEq

/-- `verify_api_key` of `main.py`. `api_key` is the process-wide `API_KEY`
environment value (`none` when unset); `key` is the `X-API-Key` header value
(`none` when absent, since the header is declared with `auto_error=False`).
Returns the outcome together with the tracker state after the call. -/
def verify_api_key (api_key : Option String) (key : Option String) (now : Time)
    (ip : String) (st : TrackerState) : AuthOutcome × TrackerState :=
  match api_key with
  | none => (.allow, st)
  | some secret =>
    let res := _is_blocked now ip st
    if res.1 then
      (.httpError 429 "Too many failed attempts. Try again later.", res.2)
    else if key ≠ some secret then
      (.httpError 401 "Invalid or missing API key.", _record_failure now ip res.2)
    else
      (.allow, res.2)

/-- The blocking unit of work handed to `anyio.to_thread.run_sync`
(`_process_image` on the gathered bytes): its running time, and either the
produced PNG bytes or the message of the exception it raises. -/
structure Work where
  duration : Time
  result : Except String (List Byte)

/-- The three ways the offloaded work can end, as seen by the handler. -/
inductive ProcessingOutcome where
  | success (bytes : List Byte)
  | timeout
  | failure (cause : String)
deriving DecidableEq

/-- The `anyio.fail_after(INFERENCE_TIMEOUT)` block around
`anyio.to_thread.run_sync`. `run_sync` is called with the default
`abandon_on_cancel=False`, so anyio shields the wait on the worker thread:
when the deadline expires the scope is merely marked cancelled, the
cancellation is only deliverable at a checkpoint, and no checkpoint lies
between the thread finishing and the `fail_after` scope exiting. Hence no
`TimeoutError` is ever raised for the offloaded work, however long it runs:
its own completion or raised failure always comes through, and the `timeout`
parameter of the scope has no effect on this call. The `.timeout` outcome
(the `except TimeoutError` branch of `remove_bg`) is therefore never
produced. -/
def runWithTimeout (_timeout : Time) (w : Work) : ProcessingOutcome :=
  match w.result with
  | .ok b => .success b
  | .error c => .failure c

/-- Membership of the declared content type in `ALLOWED_TYPES`; an absent
content type (`None` in Python) is a member of no set. -/
def ctAllowed : Option String → Bool
  | none => false
  | some s => ALLOWED_TYPES.contains s

/-- Rendering of `file.content_type` inside the 415 f-string (`None` when the
value is absent, as Python formats it). -/
def contentTypeStr : Option String → String
  | none => "None"
  | some s => s

/-- The 415 detail `f"Unsupported file type: {file.content_type}. Allowed: ..."`. -/
def unsupportedDetail (ct : Option String) : String :=
  "Unsupported file type: " ++ contentTypeStr ct ++ ". Allowed: "
    ++ String.intercalate ", " ALLOWED_TYPES

/-- The upload loop of `remove_bg`: `file.read` yields the chunks of `stream`
in order (an empty chunk means end of stream); `total` is the running byte
count and `chunks` the accumulator. Exceeding `MAX_FILE_SIZE` raises the 413,
modelled as `none`, without another read. -/
def readUpload : List (List Byte) → ℕ → List (List Byte) → Option (List Byte)
  | [], _total, chunks => some chunks.flatten
  | chunk :: rest, total, chunks =>
    if chunk = [] then some chunks.flatten
    else
      let total := total + chunk.length
      if MAX_FILE_SIZE < total then none
      else readUpload rest total (chunks ++ [chunk])

/-- Response of the `remove_bg` endpoint: the `StreamingResponse` carrying the
result bytes, media type and `Content-Disposition` header, or a raised
`HTTPException`. -/
inductive Response where
  | streaming (body : List Byte) (media_type : String) (content_disposition : String)
  | httpError (status : ℕ) (detail : String)
deriving DecidableEq

/-- The `remove_bg` handler of `main.py` after authentication: content-type
check, size-limited upload loop, then the timeout-bounded offload of `work`
(which receives the gathered bytes and `file.content_type or ""`). -/
def remove_bg (inference_timeout : Time) (content_type : Option String)
    (stream : List (List Byte)) (work : List Byte → String → Work) : Response :=
  if ctAllowed content_type = false then
    .httpError 415 (unsupportedDetail content_type)
  else
    match readUpload stream 0 [] with
    | none => .httpError 413 "File too large. Max 20 MB."
    | some image_bytes =>
      match runWithTimeout inference_timeout (work image_bytes ((content_type).getD "")) with
      | .timeout => .httpError 504 "Processing timed out."
      | .failure _ => .httpError 500 "Background removal failed."
      | .success b => .streaming b "image/png" "attachment; filename=no-bg.png"

/-! ### Helper lemmas -/

theorem _is_blocked_fst_true_iff (now : Time) (ip : String) (st : TrackerState) :
    (_is_blocked now ip st).1 = true ↔
      ∃ t, st.blocked_ips ip = some t ∧ now - t < BLOCK_DURATION := by
  unfold _is_blocked
  cases hb : st.blocked_ips ip with
  | none => simp
  | some t =>
    by_cases hlt : now - t < BLOCK_DURATION <;> simp [hlt]

theorem _is_blocked_eq_of_fst_true (now : Time) (ip : String) (st : TrackerState)
    (h : (_is_blocked now ip st).1 = true) : _is_blocked now ip st = (true, st) := by
  obtain ⟨t, hb, hlt⟩ := (_is_blocked_fst_true_iff now ip st).mp h
  simp [_is_blocked, hb, hlt]

theorem readUpload_spec (stream : List (List Byte)) :
    ∀ (total : ℕ) (acc : List (List Byte)), total ≤ MAX_FILE_SIZE →
      (∀ c ∈ stream, c ≠ []) →
      readUpload stream total acc =
        if MAX_FILE_SIZE < total + stream.flatten.length then none
        else some (acc.flatten ++ stream.flatten) := by
  induction stream with
  | nil =>
    intro total acc htot _
    have hcond : ¬ MAX_FILE_SIZE < total + (List.flatten ([] : List (List Byte))).length := by
      simp; omega
    simp [readUpload, hcond]
    omega
  | cons c rest ih =>
    intro total acc htot hne
    have hc : c ≠ [] := hne c (by simp)
    rw [readUpload]
    rw [if_neg hc]
    by_cases hover : MAX_FILE_SIZE < total + c.length
    · rw [if_pos hover]
      have hcond : MAX_FILE_SIZE < total + (List.flatten (c :: rest)).length := by
        simp only [List.flatten_cons, List.length_append]
        omega
      rw [if_pos hcond]
    · rw [if_neg hover]
      rw [ih (total + c.length) (acc ++ [c]) (by omega)
        (fun x hx => hne x (List.mem_cons_of_mem c hx))]
      simp only [List.flatten_cons, List.flatten_append, List.length_append,
        List.flatten_cons, List.flatten_nil, List.append_nil, List.append_assoc,
        Nat.add_assoc]

/-! ### Concrete states for witnesses -/

/-- A state with four recent failures for `"1.2.3.4"` and no lockout. -/
def stFour : TrackerState :=
  { failed_attempts := fun x => if x = "1.2.3.4" then some [0, 1, 2, 3] else none,
    blocked_ips := fun _ => none }

/-- A state where `"1.2.3.4"` was locked out at monotonic time 4 with five
recorded failures. -/
def stLocked : TrackerState :=
  { failed_attempts := fun x => if x = "1.2.3.4" then some [0, 1, 2, 3, 4] else none,
    blocked_ips := fun x => if x = "1.2.3.4" then some 4 else none }

/-! ### Claims -/

/-- C1: once `_record_failure` brings the in-window failure count to the
threshold, a lockout is created at the current monotonic time; `_is_blocked`
returns true iff a lockout record exists and strictly less than
`BLOCK_DURATION` has elapsed; and an `_is_blocked` call observing elapsed time
at least `BLOCK_DURATION` returns false and deletes both the lockout record
and the attempt record (lazy reset). -/
theorem lockout_lifecycle :
    (∀ (now : Time) (ip : String) (st : TrackerState),
        MAX_FAILED_ATTEMPTS ≤
            (pruneWindow now ((st.failed_attempts ip).getD []) ++ [now]).length →
        (_record_failure now ip st).blocked_ips ip = some now) ∧
    (∀ (now : Time) (ip : String) (st : TrackerState),
        ((_is_blocked now ip st).1 = true ↔
          ∃ t, st.blocked_ips ip = some t ∧ now - t < BLOCK_DURATION)) ∧
    (∀ (now : Time) (ip : String) (st : TrackerState) (t : Time),
        st.blocked_ips ip = some t → BLOCK_DURATION ≤ now - t →
        (_is_blocked now ip st).1 = false ∧
        (_is_blocked now ip st).2.blocked_ips ip = none ∧
        (_is_blocked now ip st).2.failed_attempts ip = none) := by
  refine ⟨?_, fun now ip st => _is_blocked_fst_true_iff now ip st, ?_⟩
  · intro now ip st h
    unfold _record_failure
    rw [if_pos h]
    simp
  · intro now ip st t hb hd
    have hne : ¬ now - t < BLOCK_DURATION := not_lt.2 hd
    simp [_is_blocked, hb, hne]

/-- C1 witness: four priors plus a fifth failure at time 4 create the lockout;
the lockout is live at time 10; at time 1000 the check returns false and wipes
both records. -/
theorem lockout_lifecycle_witness :
    (_record_failure 4 "1.2.3.4" stFour).blocked_ips "1.2.3.4" = some 4 ∧
    (_is_blocked 10 "1.2.3.4" stLocked).1 = true ∧
    ((_is_blocked 1000 "1.2.3.4" stLocked).1 = false ∧
      (_is_blocked 1000 "1.2.3.4" stLocked).2.blocked_ips "1.2.3.4" = none ∧
      (_is_blocked 1000 "1.2.3.4" stLocked).2.failed_attempts "1.2.3.4" = none) := by
  refine ⟨lockout_lifecycle.1 4 "1.2.3.4" stFour ?_,
          (lockout_lifecycle.2.1 10 "1.2.3.4" stLocked).mpr ⟨4, ?_, ?_⟩,
          ?_⟩
  · norm_num [stFour, pruneWindow, List.filter, ATTEMPT_WINDOW, MAX_FAILED_ATTEMPTS]
  · norm_num [stLocked]
  · norm_num [BLOCK_DURATION]
  · refine lockout_lifecycle.2.2 1000 "1.2.3.4" stLocked 4 ?_ ?_
    · norm_num [stLocked]
    · norm_num [BLOCK_DURATION]

/-- C2: `_record_failure` stores exactly the in-window timestamps plus the
current time; every stored timestamp is strictly within `ATTEMPT_WINDOW`
of the call; a timestamp at or beyond `ATTEMPT_WINDOW` age is always
discarded (sliding-window counting). -/
theorem sliding_window_pruning (now : Time) (ip : String) (st : TrackerState) :
    (_record_failure now ip st).failed_attempts ip =
      some (pruneWindow now ((st.failed_attempts ip).getD []) ++ [now]) ∧
    (∀ t ∈ pruneWindow now ((st.failed_attempts ip).getD []), now - t < ATTEMPT_WINDOW) ∧
    (∀ t ∈ (st.failed_attempts ip).getD [], ATTEMPT_WINDOW ≤ now - t →
        t ∉ pruneWindow now ((st.failed_attempts ip).getD [])) := by
  refine ⟨?_, ?_, ?_⟩
  · unfold _record_failure
    by_cases h : MAX_FAILED_ATTEMPTS ≤
        (pruneWindow now ((st.failed_attempts ip).getD []) ++ [now]).length
    · rw [if_pos h]; simp
    · rw [if_neg h]; simp
  · intro t ht
    exact of_decide_eq_true (List.mem_filter.mp ht).2
  · intro t _ hle hmem
    exact absurd (of_decide_eq_true (List.mem_filter.mp hmem).2) (not_lt.2 hle)

/-- C2 witness: at time 100 all four old failures of `stFour` are pruned before
time 100 is appended, and the stale timestamp 0 is not in the pruned list; at
time 50 the retained timestamp 3 is strictly within the window. -/
theorem sliding_window_pruning_witness :
    (_record_failure 100 "1.2.3.4" stFour).failed_attempts "1.2.3.4" =
      some (pruneWindow 100 ((stFour.failed_attempts "1.2.3.4").getD []) ++ [100]) ∧
    (0 : Time) ∉ pruneWindow 100 ((stFour.failed_attempts "1.2.3.4").getD []) ∧
    (50 : Time) - 3 < ATTEMPT_WINDOW := by
  refine ⟨(sliding_window_pruning 100 "1.2.3.4" stFour).1,
          (sliding_window_pruning 100 "1.2.3.4" stFour).2.2 0 ?_ ?_,
          (sliding_window_pruning 50 "1.2.3.4" stFour).2.1 3 ?_⟩
  · norm_num [stFour]
  · norm_num [ATTEMPT_WINDOW]
  · norm_num [stFour, pruneWindow, List.filter, ATTEMPT_WINDOW]

/-- C3: with a secret configured and the identity currently blocked,
`verify_api_key` raises 429 "too many attempts" and leaves the tracker state
untouched (no failure recorded), for every supplied key — including the
correct secret itself. -/
theorem blocked_short_circuits_auth (secret : String) (key : Option String)
    (now : Time) (ip : String) (st : TrackerState)
    (h : (_is_blocked now ip st).1 = true) :
    verify_api_key (some secret) key now ip st =
      (.httpError 429 "Too many failed attempts. Try again later.", st) := by
  have hst := _is_blocked_eq_of_fst_true now ip st h
  simp [verify_api_key, hst]

/-- C3 witness: the identity locked out at time 4 is still refused with 429 at
time 10 even when it supplies the correct secret, and the state is unchanged. -/
theorem blocked_short_circuits_auth_witness :
    verify_api_key (some "s3cret") (some "s3cret") 10 "1.2.3.4" stLocked =
      (.httpError 429 "Too many failed attempts. Try again later.", stLocked) := by
  refine blocked_short_circuits_auth "s3cret" (some "s3cret") 10 "1.2.3.4" stLocked ?_
  norm_num [_is_blocked, stLocked, BLOCK_DURATION]

/-- C4: with no empty chunk before end of stream, the upload loop returns the
concatenation of all chunks when their total length is at most
`MAX_FILE_SIZE`, signals the 413 (`none`) when the total exceeds it, and the
abort happens the instant the running total passes the limit: the outcome on
an oversized chunk is `none` independently of whatever chunks would follow
(no further reads). -/
theorem upload_size_limit (stream : List (List Byte)) (hne : ∀ c ∈ stream, c ≠ []) :
    (stream.flatten.length ≤ MAX_FILE_SIZE →
        readUpload stream 0 [] = some stream.flatten) ∧
    (MAX_FILE_SIZE < stream.flatten.length → readUpload stream 0 [] = none) ∧
    (∀ (total : ℕ) (acc : List (List Byte)) (c : List Byte) (r₁ r₂ : List (List Byte)),
        c ≠ [] → MAX_FILE_SIZE < total + c.length →
        readUpload (c :: r₁) total acc = none ∧
        readUpload (c :: r₁) total acc = readUpload (c :: r₂) total acc) := by
  refine ⟨?_, ?_, ?_⟩
  · intro h
    rw [readUpload_spec stream 0 [] (by omega) hne]
    rw [if_neg (by omega)]
    simp
  · intro h
    rw [readUpload_spec stream 0 [] (by omega) hne]
    rw [if_pos (by omega)]
  · intro total acc c r₁ r₂ hc hover
    have h₁ : readUpload (c :: r₁) total acc = none := by
      rw [readUpload, if_neg hc, if_pos hover]
    have h₂ : readUpload (c :: r₂) total acc = none := by
      rw [readUpload, if_neg hc, if_pos hover]
    exact ⟨h₁, h₁.trans h₂.symm⟩

/-- C4 witness: a three-byte upload comes back concatenated, and a one-byte
chunk arriving when the running total already sits at `MAX_FILE_SIZE` is
rejected. -/
theorem upload_size_limit_witness :
    readUpload [[1, 2, 3]] 0 [] = some (List.flatten [[1, 2, 3]]) ∧
    readUpload [[1]] MAX_FILE_SIZE [] = none := by
  refine ⟨(upload_size_limit [[1, 2, 3]] (by decide)).1 (by decide),
          ((upload_size_limit [[1, 2, 3]] (by decide)).2.2
            MAX_FILE_SIZE [] [1] [] [] (by decide) (by simp)).1⟩

/-- C5: the claim says a work running strictly longer than the configured
timeout always yields the Timeout outcome mapped to 504 and never Success.
The code does the opposite: `fail_after` around the non-abandoning
`to_thread.run_sync` never delivers its cancellation, so a work needing 121
seconds against the 120-second timeout has its late output streamed back as a
200 success, and the offload outcome is `success`, not `timeout`. This
evaluates the program at that failing input. -/
theorem overrun_work_returns_late_success :
    remove_bg 120 (some "image/png") [[7]] (fun _ _ => ⟨121, .ok [1]⟩) =
      .streaming [1] "image/png" "attachment; filename=no-bg.png" ∧
    runWithTimeout 120 ⟨121, .ok [1]⟩ = ProcessingOutcome.success [1] ∧
    (120 : Time) < (121 : Time) := by
  refine ⟨by decide, by decide, by norm_num⟩

/-- C6: a declared content type outside the allow-list gets the 415 response
listing the allowed set, and the result is independent of the work and of the
request body stream — the work is never invoked and no body processing
occurs. -/
theorem unsupported_type_rejected (inference_timeout : Time) (ct : Option String)
    (stream₁ stream₂ : List (List Byte)) (w₁ w₂ : List Byte → String → Work)
    (hct : ctAllowed ct = false) :
    remove_bg inference_timeout ct stream₁ w₁ =
      .httpError 415 (unsupportedDetail ct) ∧
    remove_bg inference_timeout ct stream₁ w₁ =
      remove_bg inference_timeout ct stream₂ w₂ := by
  constructor <;> simp [remove_bg, hct]

/-- C6 witness: `image/bmp` is rejected with the 415 detail. -/
theorem unsupported_type_rejected_witness :
    remove_bg 120 (some "image/bmp") [[1]] (fun _ _ => ⟨1, .ok []⟩) =
      .httpError 415 (unsupportedDetail (some "image/bmp")) := by
  exact (unsupported_type_rejected 120 (some "image/bmp") [[1]] [[2]]
    (fun _ _ => ⟨1, .ok []⟩) (fun _ _ => ⟨2, .error "x"⟩) (by decide)).1

/-- C8: with no secret configured (`API_KEY` unset), `verify_api_key` allows
every request, whatever `X-API-Key` value — or none — was supplied. -/
theorem auth_disabled_allows (key : Option String) (now : Time) (ip : String)
    (st : TrackerState) :
    (verify_api_key none key now ip st).1 = AuthOutcome.allow := rfl

/-- C9: with no secret configured, `verify_api_key` leaves the tracker state
exactly unchanged, and an identity holding a live lockout record is still
allowed through — no lockout check happens in bypass mode. -/
theorem auth_disabled_frame (key : Option String) (now : Time) (ip : String)
    (st : TrackerState) :
    (verify_api_key none key now ip st).2 = st ∧
    (∀ t, st.blocked_ips ip = some t → now - t < BLOCK_DURATION →
        (verify_api_key none key now ip st).1 = AuthOutcome.allow) :=
  ⟨rfl, fun _ _ _ => rfl⟩

/-- C9 witness: the identity locked out at time 4 passes with an arbitrary
key at time 10 in bypass mode, and the state is untouched. -/
theorem auth_disabled_frame_witness :
    (verify_api_key none (some "anything") 10 "1.2.3.4" stLocked).2 = stLocked ∧
    (verify_api_key none (some "anything") 10 "1.2.3.4" stLocked).1 =
      AuthOutcome.allow := by
  refine ⟨(auth_disabled_frame (some "anything") 10 "1.2.3.4" stLocked).1,
    (auth_disabled_frame (some "anything") 10 "1.2.3.4" stLocked).2 4 ?_ ?_⟩
  · norm_num [stLocked]
  · norm_num [BLOCK_DURATION]

/-- C10: an upload carrying no declared content type at all is rejected with
the 415 detail (Python renders the absent value as "None"), independently of
the body stream and of the work — nothing is read or processed. -/
theorem missing_content_type_rejected (inference_timeout : Time)
    (stream₁ stream₂ : List (List Byte)) (w₁ w₂ : List Byte → String → Work) :
    remove_bg inference_timeout none stream₁ w₁ =
      .httpError 415 (unsupportedDetail none) ∧
    remove_bg inference_timeout none stream₁ w₁ =
      remove_bg inference_timeout none stream₂ w₂ :=
  ⟨rfl, rfl⟩

end BackRemove
